import Mathlib

/-!
Verification of the tenant-scoped transactional resource governor of a
multi-tenant clinic-management backend: seat quota enforcement
(UsersService), appointment conflict detection (AppointmentsService) and
the subscription plan lifecycle (SubscriptionService).  Each definition is
a shallow embedding of the corresponding source function; theorems settle
the specification claims against these definitions.
-/

namespace Clinic

/-! ## Data model -/

/-- Plan tiers, in the order of the source's `planHierarchy` array. -/
inductive PlanType
  | TRIAL
  | BASIC
  | PRO
  | CUSTOM
deriving DecidableEq, Repr

/-- `planHierarchy.indexOf`: TRIAL 0, BASIC 1, PRO 2, CUSTOM 3. -/
def planIndex : PlanType → Nat
  | .TRIAL => 0
  | .BASIC => 1
  | .PRO => 2
  | .CUSTOM => 3

/-- Subscription status values. -/
inductive SubStatus
  | TRIALING
  | ACTIVE
  | PAST_DUE
  | CANCELED
  | INCOMPLETE
  | UNPAID
deriving DecidableEq, Repr

/-- The fifteen boolean feature flags stored on a subscription row
(`featureClinicalNotes`, ..., `featureSSO`). -/
structure Features where
  clinicalNotes : Bool
  clinicalNotesEncryption : Bool
  attachments : Bool
  tasks : Bool
  psychologicalTests : Bool
  webPush : Bool
  fcmPush : Bool
  advancedAnalytics : Bool
  videoConsultation : Bool
  calendarSync : Bool
  onlineSchedulingWidget : Bool
  customReports : Bool
  apiAccess : Bool
  whatsAppIntegration : Bool
  sso : Bool
deriving DecidableEq, Repr

/-- Feature names accepted by `checkFeatureAccess` (the `feature` argument,
mapped to the `feature<Name>` column). -/
inductive Feature
  | clinicalNotes
  | clinicalNotesEncryption
  | attachments
  | tasks
  | psychologicalTests
  | webPush
  | fcmPush
  | advancedAnalytics
  | videoConsultation
  | calendarSync
  | onlineSchedulingWidget
  | customReports
  | apiAccess
  | whatsAppIntegration
  | sso
deriving DecidableEq, Repr

/-- Read the flag named by a `Feature` out of a `Features` bundle
(the `subscription[featureKey] === true` lookup). -/
def Features.get (fs : Features) : Feature → Bool
  | .clinicalNotes => fs.clinicalNotes
  | .clinicalNotesEncryption => fs.clinicalNotesEncryption
  | .attachments => fs.attachments
  | .tasks => fs.tasks
  | .psychologicalTests => fs.psychologicalTests
  | .webPush => fs.webPush
  | .fcmPush => fs.fcmPush
  | .advancedAnalytics => fs.advancedAnalytics
  | .videoConsultation => fs.videoConsultation
  | .calendarSync => fs.calendarSync
  | .onlineSchedulingWidget => fs.onlineSchedulingWidget
  | .customReports => fs.customReports
  | .apiAccess => fs.apiAccess
  | .whatsAppIntegration => fs.whatsAppIntegration
  | .sso => fs.sso

/-- The `tenantSubscription` row, restricted to the fields read or written
by the governed operations.  Counters are `Int` (database integers), so
that "never negative" is a provable property rather than a typing
artifact. -/
structure Subscription where
  planType : PlanType
  status : SubStatus
  basePrice : Int
  pricePerSeat : Int
  seatsPsychologistsMax : Int
  seatsPsychologistsUsed : Int
  maxActivePatients : Int
  storageGB : Int
  monthlyNotificationsLimit : Int
  monthlyNotificationsSent : Int
  storageUsedBytes : Int
  features : Features
  scheduledPlanChange : Option PlanType
  scheduledPlanChangeAt : Option Int
  currentPeriodEnd : Option Int
deriving DecidableEq, Repr

/-- `subscriptionEvent.create` event types used by the lifecycle. -/
inductive SubscriptionEventType
  | PLAN_UPGRADED
  | PLAN_DOWNGRADED
deriving DecidableEq, Repr

/-- An append-only `subscriptionEvent` row (the fields the lifecycle
writes besides free-form metadata). -/
structure SubscriptionEvent where
  eventType : SubscriptionEventType
  previousPlan : PlanType
  newPlan : PlanType
deriving DecidableEq, Repr

/-- Real usage counts re-read from the database by `validateDowngrade`:
`user.count` of active PSYCHOLOGIST rows and `patient.count` of
non-deleted rows. -/
structure TenantUsage where
  psychologistsCount : Int
  activePatientsCount : Int
deriving DecidableEq, Repr

/-- The per-tenant state touched by the subscription lifecycle: the
subscription row (if any), the append-only event log, and the real usage
counts. -/
structure TenantState where
  subscription : Option Subscription
  events : List SubscriptionEvent
  usage : TenantUsage
deriving DecidableEq, Repr

/-! ## Plan tables (`getPlanLimits` / `getPlanFeatures`) -/

/-- One entry of the `plans` table in `getPlanLimits`. -/
structure PlanLimits where
  planType : PlanType
  basePrice : Int
  pricePerSeat : Int
  seatsIncluded : Int
  maxActivePatients : Int
  storageGB : Int
  monthlyNotificationsLimit : Int
deriving DecidableEq, Repr

/-- `SubscriptionService.getPlanLimits`. -/
def getPlanLimits : PlanType → PlanLimits
  | .TRIAL => ⟨.TRIAL, 0, 0, 1, 10, 0, 100⟩
  | .BASIC => ⟨.BASIC, 49, 15, 3, 100, 0, 500⟩
  | .PRO => ⟨.PRO, 149, 12, 10, 500, 1, 2000⟩
  | .CUSTOM => ⟨.CUSTOM, 0, 0, 999, 999999, 100, 999999⟩

/-- `SubscriptionService.getPlanFeatures`. -/
def getPlanFeatures : PlanType → Features
  | .TRIAL =>
    { clinicalNotes := true, clinicalNotesEncryption := false,
      attachments := false, tasks := false, psychologicalTests := false,
      webPush := false, fcmPush := false, advancedAnalytics := false,
      videoConsultation := false, calendarSync := false,
      onlineSchedulingWidget := false, customReports := false,
      apiAccess := false, whatsAppIntegration := false, sso := false }
  | .BASIC =>
    { clinicalNotes := true, clinicalNotesEncryption := false,
      attachments := true, tasks := true, psychologicalTests := false,
      webPush := false, fcmPush := true, advancedAnalytics := false,
      videoConsultation := false, calendarSync := false,
      onlineSchedulingWidget := true, customReports := false,
      apiAccess := false, whatsAppIntegration := false, sso := false }
  | .PRO =>
    { clinicalNotes := true, clinicalNotesEncryption := true,
      attachments := true, tasks := true, psychologicalTests := true,
      webPush := true, fcmPush := true, advancedAnalytics := true,
      videoConsultation := true, calendarSync := true,
      onlineSchedulingWidget := true, customReports := true,
      apiAccess := true, whatsAppIntegration := false, sso := false }
  | .CUSTOM =>
    { clinicalNotes := true, clinicalNotesEncryption := true,
      attachments := true, tasks := true, psychologicalTests := true,
      webPush := true, fcmPush := true, advancedAnalytics := true,
      videoConsultation := true, calendarSync := true,
      onlineSchedulingWidget := true, customReports := true,
      apiAccess := true, whatsAppIntegration := true, sso := true }

/-! ## Feature access (`checkFeatureAccess`) -/

/-- `SubscriptionService.checkFeatureAccess`: `false` when the tenant has
no subscription or the status is neither ACTIVE nor TRIALING, otherwise
the stored flag compared against `true`. -/
def checkFeatureAccess (sub? : Option Subscription) (f : Feature) : Bool :=
  match sub? with
  | none => false
  | some s =>
    if s.status ≠ SubStatus.ACTIVE ∧ s.status ≠ SubStatus.TRIALING then false
    else s.features.get f

/-! ## Downgrade validation (`validateDowngrade`) -/

/-- The itemized entries of `validations.errors` produced by
`validateDowngrade` (one per violated target-tier limit). -/
inductive DowngradeViolation
  | seatsExceeded
  | patientsExceeded
  | storageExceeded
deriving DecidableEq, Repr

/-- The feature-loss warnings pushed by `validateDowngrade`. -/
inductive FeatureWarning
  | loseAdvancedAnalytics
  | loseVideoConsultation
  | loseClinicalNotesEncryption
deriving DecidableEq, Repr

/-- Result shape of `validateDowngrade`:
`{ canDowngrade, errors, warnings }`. -/
structure DowngradeValidation where
  canDowngrade : Bool
  errors : List DowngradeViolation
  warnings : List FeatureWarning
deriving DecidableEq, Repr

/-- 1024 * 1024 * 1024: the divisor in
`Number(storageUsedBytes) / (1024 * 1024 * 1024)`. -/
def bytesPerGB : Int := 1073741824

/-- `SubscriptionService.validateDowngrade`: compares real usage (active
psychologists, non-deleted patients, storage bytes) against the target
tier's limits, in source order; the storage check and the feature-loss
warnings only run when the subscription row is found.  The float
comparison `storageUsedBytes / 2^30 > storageGB` is embedded as the exact
equivalent `storageUsedBytes > storageGB * 2^30`. -/
def validateDowngrade (st : TenantState) (newPlanLimits : PlanLimits) :
    DowngradeValidation :=
  let e1 : List DowngradeViolation :=
    if st.usage.psychologistsCount > newPlanLimits.seatsIncluded then
      [.seatsExceeded] else []
  let e2 : List DowngradeViolation :=
    if st.usage.activePatientsCount > newPlanLimits.maxActivePatients then
      [.patientsExceeded] else []
  match st.subscription with
  | none =>
    { canDowngrade := (e1 ++ e2).isEmpty, errors := e1 ++ e2, warnings := [] }
  | some sub =>
    let e3 : List DowngradeViolation :=
      if sub.storageUsedBytes > newPlanLimits.storageGB * bytesPerGB then
        [.storageExceeded] else []
    let newFeatures := getPlanFeatures newPlanLimits.planType
    let w1 : List FeatureWarning :=
      if sub.features.advancedAnalytics && !newFeatures.advancedAnalytics then
        [.loseAdvancedAnalytics] else []
    let w2 : List FeatureWarning :=
      if sub.features.videoConsultation && !newFeatures.videoConsultation then
        [.loseVideoConsultation] else []
    let w3 : List FeatureWarning :=
      if sub.features.clinicalNotesEncryption &&
          !newFeatures.clinicalNotesEncryption then
        [.loseClinicalNotesEncryption] else []
    { canDowngrade := (e1 ++ e2 ++ e3).isEmpty,
      errors := e1 ++ e2 ++ e3,
      warnings := w1 ++ w2 ++ w3 }

/-! ## Plan changes (`upgradePlan` / `downgradePlan`) -/

/-- Outcome of `downgradePlan` (exceptions embedded as constructors). -/
inductive DowngradeReply
  | noSubscription
  | notADowngrade
  | blocked (validations : List DowngradeViolation)
  | scheduled (effectiveDate : Option Int) (currentPlan newPlan : PlanType)
      (warnings : List FeatureWarning)
deriving DecidableEq, Repr

/-- `SubscriptionService.downgradePlan`: rejects when no subscription or
when `newIndex >= currentIndex`; blocks (with the itemized validation
errors and no state change) when `validateDowngrade` fails; otherwise
writes only `scheduledPlanChange := newPlan` and
`scheduledPlanChangeAt := currentPeriodEnd` and appends one
PLAN_DOWNGRADED event. -/
def downgradePlan (st : TenantState) (newPlan : PlanType) :
    DowngradeReply × TenantState :=
  match st.subscription with
  | none => (.noSubscription, st)
  | some sub =>
    if planIndex newPlan ≥ planIndex sub.planType then (.notADowngrade, st)
    else
      let newPlanLimits := getPlanLimits newPlan
      let validations := validateDowngrade st newPlanLimits
      if !validations.canDowngrade then (.blocked validations.errors, st)
      else
        let sub' := { sub with
          scheduledPlanChange := some newPlan,
          scheduledPlanChangeAt := sub.currentPeriodEnd }
        let ev : SubscriptionEvent :=
          ⟨.PLAN_DOWNGRADED, sub.planType, newPlan⟩
        (.scheduled sub.currentPeriodEnd sub.planType newPlan
            validations.warnings,
         { st with subscription := some sub', events := st.events ++ [ev] })

/-- Outcome of `upgradePlan`. -/
inductive UpgradeReply
  | noSubscription
  | notAnUpgrade
  | upgraded (newPlan : PlanType)
deriving DecidableEq, Repr

/-- `SubscriptionService.upgradePlan`: rejects when no subscription or
when `newIndex <= currentIndex`; otherwise immediately replaces plan
type, prices, all limits and the full feature bundle with the new tier's
fixed values, sets status ACTIVE, clears any scheduled change, and
appends one PLAN_UPGRADED event. -/
def upgradePlan (st : TenantState) (newPlan : PlanType) :
    UpgradeReply × TenantState :=
  match st.subscription with
  | none => (.noSubscription, st)
  | some sub =>
    if planIndex newPlan ≤ planIndex sub.planType then (.notAnUpgrade, st)
    else
      let newPlanLimits := getPlanLimits newPlan
      let sub' := { sub with
        planType := newPlan,
        status := SubStatus.ACTIVE,
        basePrice := newPlanLimits.basePrice,
        pricePerSeat := newPlanLimits.pricePerSeat,
        seatsPsychologistsMax := newPlanLimits.seatsIncluded,
        maxActivePatients := newPlanLimits.maxActivePatients,
        storageGB := newPlanLimits.storageGB,
        monthlyNotificationsLimit := newPlanLimits.monthlyNotificationsLimit,
        features := getPlanFeatures newPlan,
        scheduledPlanChange := none,
        scheduledPlanChangeAt := none }
      let ev : SubscriptionEvent := ⟨.PLAN_UPGRADED, sub.planType, newPlan⟩
      (.upgraded newPlan,
       { st with subscription := some sub', events := st.events ++ [ev] })

/-! ## Seat quota (`UsersService`) -/

/-- The structured denials thrown by `checkSeatAvailability`. -/
inductive SeatDenial
  | noSubscription
  | subscriptionInactive
  | seatLimitReached
deriving DecidableEq, Repr

/-- `UsersService.checkSeatAvailability`: a plain read of the
subscription row followed by status and limit checks; throws (returns
`some` denial) without writing anything. -/
def checkSeatAvailability (sub? : Option Subscription) : Option SeatDenial :=
  match sub? with
  | none => some .noSubscription
  | some s =>
    if s.status ≠ SubStatus.ACTIVE ∧ s.status ≠ SubStatus.TRIALING then
      some .subscriptionInactive
    else if s.seatsPsychologistsUsed ≥ s.seatsPsychologistsMax then
      some .seatLimitReached
    else none

/-- The write step of the seat reservation: the
`tenantSubscription.update` with
`data: { seatsPsychologistsUsed: { increment: 1 } }` — an unconditional
increment with no WHERE guard on the counter. -/
def seatIncrementStep (s : Subscription) : Subscription :=
  { s with seatsPsychologistsUsed := s.seatsPsychologistsUsed + 1 }

/-- The seat release step used by `deactivate` and the seat-freeing
branch of `update`: `updateMany` guarded by
`seatsPsychologistsUsed: { gt: 0 }` with `decrement: 1` — a conditional
decrement in one statement. -/
def seatConditionalRelease (s : Subscription) : Subscription :=
  if s.seatsPsychologistsUsed > 0 then
    { s with seatsPsychologistsUsed := s.seatsPsychologistsUsed - 1 }
  else s

/-- The seat-reserving path of `UsersService.create` / `invite` /
`activate`, executed sequentially as one committed operation:
`checkSeatAvailability` first (throwing on denial, before any write),
then the unconditional increment. -/
def reserveSeat (sub? : Option Subscription) : Except SeatDenial Subscription :=
  match checkSeatAvailability sub? with
  | some d => .error d
  | none =>
    match sub? with
    | none => .error .noSubscription
    | some s => .ok (seatIncrementStep s)

/-- A committed seat operation: a reservation (create/invite/activate of
a PSYCHOLOGIST) or a release (deactivate, or update removing
active-PSYCHOLOGIST status).  A denied reservation leaves the row
unchanged. -/
inductive SeatOp
  | reserve
  | release
deriving DecidableEq, Repr

/-- Apply one committed seat operation to the subscription row. -/
def applySeatOp (s : Subscription) : SeatOp → Subscription
  | .reserve =>
    match reserveSeat (some s) with
    | .ok s' => s'
    | .error _ => s
  | .release => seatConditionalRelease s

/-- Run a sequence of sequentially committed seat operations. -/
def runSeatOps (s : Subscription) (ops : List SeatOp) : Subscription :=
  ops.foldl applySeatOp s

/-- Sequentially fire `n` seat reservations, counting successes and
denials and threading the subscription row. -/
def seqReserveRun (s : Subscription) : Nat → Nat × Nat × Subscription
  | 0 => (0, 0, s)
  | n + 1 =>
    match reserveSeat (some s) with
    | .ok s' =>
      let r := seqReserveRun s' n
      (r.1 + 1, r.2.1, r.2.2)
    | .error _ =>
      let r := seqReserveRun s n
      (r.1, r.2.1 + 1, r.2.2)

/-! ### Interleaved seat reservations

`checkSeatAvailability` is a separate SELECT and the increment a separate
UPDATE, so a concurrent execution of several calls interleaves two atomic
steps per call: the read-and-check, then (if granted) the unconditional
increment. -/

/-- Progress of one in-flight reservation call. -/
inductive CallPhase
  | pending
  | granted
  | succeeded
  | denied
deriving DecidableEq, Repr

/-- Shared subscription row plus the phase of each concurrent call. -/
structure ConcurrentRun where
  sub : Subscription
  phases : List CallPhase
deriving DecidableEq, Repr

/-- The check evaluated by `checkSeatAvailability` at read time. -/
def canReserveNow (s : Subscription) : Bool :=
  decide ((s.status = SubStatus.ACTIVE ∨ s.status = SubStatus.TRIALING) ∧
    s.seatsPsychologistsUsed < s.seatsPsychologistsMax)

/-- One atomic step of call `i`: a pending call performs the read-check
against the current row; a granted call performs the unconditional
increment.  Finished or out-of-range calls do nothing. -/
def concStep (r : ConcurrentRun) (i : Nat) : ConcurrentRun :=
  match r.phases[i]? with
  | some .pending =>
    if canReserveNow r.sub then { r with phases := r.phases.set i .granted }
    else { r with phases := r.phases.set i .denied }
  | some .granted =>
    { sub := seatIncrementStep r.sub, phases := r.phases.set i .succeeded }
  | _ => r

/-- Run an interleaving (a list of call indices, each index naming which
call takes its next atomic step). -/
def runSchedule (r : ConcurrentRun) (sched : List Nat) : ConcurrentRun :=
  sched.foldl concStep r

/-- Count the calls currently in a given phase. -/
def countPhase (r : ConcurrentRun) (p : CallPhase) : Nat :=
  (r.phases.filter (fun q => q == p)).length

/-! ## Appointments (`AppointmentsService`) -/

/-- Appointment status values. -/
inductive ApptStatus
  | SCHEDULED
  | CONFIRMED
  | IN_PROGRESS
  | COMPLETED
  | CANCELLED
  | NO_SHOW
deriving DecidableEq, Repr

/-- An `appointment` row, restricted to the fields the service reads or
writes.  Times are absolute milliseconds (`Date.getTime()`), duration is
in minutes, and `endTime = startTime + duration * 60000`. -/
structure Appointment where
  id : Nat
  tenantId : Nat
  psychologistId : Nat
  patientId : Nat
  startTime : Int
  endTime : Int
  duration : Int
  status : ApptStatus
  cancelledBy : Option Nat
deriving DecidableEq, Repr

/-- The three-clause OR of `checkConflicts`, evaluated against an
existing row with interval `[aStart, aEnd]` and the proposed interval
`[bStart, bEnd]`:
new starts during existing (`startTime <= B.start AND endTime > B.start`),
new ends during existing (`startTime < B.end AND endTime >= B.end`),
new contains existing (`startTime >= B.start AND endTime <= B.end`). -/
def overlapClauses (aStart aEnd bStart bEnd : Int) : Bool :=
  (decide (aStart ≤ bStart) && decide (aEnd > bStart)) ||
  (decide (aStart < bEnd) && decide (aEnd ≥ bEnd)) ||
  (decide (aStart ≥ bStart) && decide (aEnd ≤ bEnd))

/-- The full WHERE clause of `checkConflicts`: same tenant, same
psychologist, status not CANCELLED and not NO_SHOW, not the excluded row,
and the three-clause overlap OR. -/
def conflictMatches (tenantId psychologistId : Nat) (bStart bEnd : Int)
    (excludeAppointmentId : Option Nat) (a : Appointment) : Bool :=
  decide (a.tenantId = tenantId) && decide (a.psychologistId = psychologistId) &&
  !(decide (a.status = ApptStatus.CANCELLED) ||
    decide (a.status = ApptStatus.NO_SHOW)) &&
  (match excludeAppointmentId with
   | some e => decide (a.id ≠ e)
   | none => true) &&
  overlapClauses a.startTime a.endTime bStart bEnd

/-- `AppointmentsService.checkConflicts`: `findMany` over the stored
appointments with the conflict WHERE clause — all matching rows are
returned together. -/
def checkConflicts (stored : List Appointment) (tenantId psychologistId : Nat)
    (bStart bEnd : Int) (excludeAppointmentId : Option Nat) :
    List Appointment :=
  stored.filter (conflictMatches tenantId psychologistId bStart bEnd
    excludeAppointmentId)

/-- Per-tenant working-hours configuration (`tenantSettings`):
`workingDays` holds uppercase weekday names; the hour strings `"HH:MM"`
are embedded as `(hour, minute)` pairs split on the colon. -/
inductive Weekday
  | MONDAY
  | TUESDAY
  | WEDNESDAY
  | THURSDAY
  | FRIDAY
  | SATURDAY
  | SUNDAY
deriving DecidableEq, Repr

/-- The `tenantSettings` fields read by appointment creation. -/
structure TenantSettings where
  workingDays : List Weekday
  workingHoursStart : Nat × Nat
  workingHoursEnd : Nat × Nat
deriving DecidableEq, Repr

/-- Outcome of `AppointmentsService.create` from the working-hours gate
onward (the earlier patient/psychologist existence and past-time checks
are independent of this claim's inputs). -/
inductive BookingReply
  | wrongDay
  | outsideHours
  | conflict (conflicts : List Appointment)
  | booked (a : Appointment)
deriving DecidableEq, Repr

/-- The tail of `create` after the working-hours gate: run the conflict
search over the stored rows (no exclusion) and insert with status
SCHEDULED.  `startMs` is `start.getTime()`; the end instant is
`start.getTime() + duration * 60000`. -/
def finishBooking (stored : List Appointment)
    (tenantId psychologistId patientId newId : Nat)
    (startMs duration : Int) : BookingReply :=
  let endMs := startMs + duration * 60000
  let conflicts := checkConflicts stored tenantId psychologistId startMs endMs none
  if conflicts.isEmpty then
    .booked
      { id := newId, tenantId := tenantId, psychologistId := psychologistId,
        patientId := patientId, startTime := startMs, endTime := endMs,
        duration := duration, status := .SCHEDULED, cancelledBy := none }
  else .conflict conflicts

/-- `AppointmentsService.create` from the working-hours validation
onward.  When settings exist, the weekday of the start must be a working
day and the start's minutes-of-day (`getHours() * 60 + getMinutes()`,
passed as `startMinutes`) must satisfy
`workStart <= startMinutes < workEnd`; only then does the conflict search
and insert run.  The end instant's minutes-of-day is never consulted. -/
def createAppointment (settings : Option TenantSettings)
    (stored : List Appointment)
    (tenantId psychologistId patientId newId : Nat)
    (weekday : Weekday) (startMinutes : Int) (startMs duration : Int) :
    BookingReply :=
  match settings with
  | none =>
    finishBooking stored tenantId psychologistId patientId newId startMs duration
  | some s =>
    if weekday ∉ s.workingDays then .wrongDay
    else
      let workStart : Int := s.workingHoursStart.1 * 60 + s.workingHoursStart.2
      let workEnd : Int := s.workingHoursEnd.1 * 60 + s.workingHoursEnd.2
      if startMinutes < workStart ∨ startMinutes ≥ workEnd then .outsideHours
      else
        finishBooking stored tenantId psychologistId patientId newId startMs
          duration

/-- The update payload (`UpdateAppointmentDto`): absent fields keep the
stored values. -/
structure UpdateApptDto where
  startTime : Option Int
  duration : Option Int
  psychologistId : Option Nat
  patientId : Option Nat
  status : Option ApptStatus
deriving DecidableEq, Repr

/-- Outcome of `update` / `cancel`. -/
inductive UpdateReply
  | notFound
  | conflict (conflicts : List Appointment)
  | updated (a : Appointment)
deriving DecidableEq, Repr

/-- The write of `update`: spread the dto fields over the row (status,
patient and psychologist reconnected when present); `endTime` is set only
when the time branch computed a new end. -/
def applyUpdateDto (a : Appointment) (dto : UpdateApptDto)
    (newEnd : Option Int) : Appointment :=
  { a with
    startTime := dto.startTime.getD a.startTime,
    duration := dto.duration.getD a.duration,
    endTime := newEnd.getD a.endTime,
    status := dto.status.getD a.status,
    patientId := dto.patientId.getD a.patientId,
    psychologistId := dto.psychologistId.getD a.psychologistId }

/-- `AppointmentsService.update`: find the row by id within the tenant;
if a new start or duration is supplied, recompute the end and re-run the
conflict search excluding the row itself; then apply the dto.  No status
precondition is evaluated — COMPLETED rows take the same path as any
other. -/
def updateAppointment (stored : List Appointment)
    (tenantId appointmentId : Nat) (dto : UpdateApptDto) : UpdateReply :=
  match stored.find? (fun a =>
      decide (a.id = appointmentId) && decide (a.tenantId = tenantId)) with
  | none => .notFound
  | some existing =>
    if dto.startTime.isSome || dto.duration.isSome then
      let newStart := dto.startTime.getD existing.startTime
      let newDuration := dto.duration.getD existing.duration
      let newEnd := newStart + newDuration * 60000
      let conflicts := checkConflicts stored tenantId
        (dto.psychologistId.getD existing.psychologistId) newStart newEnd
        (some appointmentId)
      if conflicts.isEmpty then
        .updated (applyUpdateDto existing dto (some newEnd))
      else .conflict conflicts
    else .updated (applyUpdateDto existing dto none)

/-- `AppointmentsService.cancel`: find the row by id within the tenant
and set status CANCELLED with the cancellation audit fields — no status
precondition is evaluated. -/
def cancelAppointment (stored : List Appointment)
    (tenantId appointmentId userId : Nat) : UpdateReply :=
  match stored.find? (fun a =>
      decide (a.id = appointmentId) && decide (a.tenantId = tenantId)) with
  | none => .notFound
  | some a =>
    .updated { a with status := .CANCELLED, cancelledBy := some userId }

/-! ## Concrete instances used by witnesses and counterexamples -/

/-- A TRIAL subscription at its seat limit (`seatsMax = 1, seatsUsed = 1`). -/
def atLimitSub : Subscription :=
  { planType := .TRIAL, status := .ACTIVE, basePrice := 0, pricePerSeat := 0,
    seatsPsychologistsMax := 1, seatsPsychologistsUsed := 1,
    maxActivePatients := 10, storageGB := 0,
    monthlyNotificationsLimit := 100, monthlyNotificationsSent := 0,
    storageUsedBytes := 0, features := getPlanFeatures .TRIAL,
    scheduledPlanChange := none, scheduledPlanChangeAt := none,
    currentPeriodEnd := some 1700000000000 }

/-- The same subscription with a free seat. -/
def oneFreeSub : Subscription :=
  { atLimitSub with seatsPsychologistsUsed := 0 }

/-- A PAST_DUE subscription whose stored flags are all `true`. -/
def pastDueSub : Subscription :=
  { atLimitSub with status := .PAST_DUE, features := getPlanFeatures .CUSTOM }

/-- A stored COMPLETED appointment. -/
def completedAppt : Appointment :=
  { id := 7, tenantId := 1, psychologistId := 2, patientId := 3,
    startTime := 0, endTime := 3600000, duration := 60,
    status := .COMPLETED, cancelledBy := none }

/-- Working hours 09:00 to 17:00, every day a working day. -/
def demoSettings : TenantSettings :=
  { workingDays := [.MONDAY, .TUESDAY, .WEDNESDAY, .THURSDAY, .FRIDAY,
      .SATURDAY, .SUNDAY],
    workingHoursStart := (9, 0), workingHoursEnd := (17, 0) }

/-! ## C1: the seat increment is not a conditional update -/

/-- C1 counterexample: the write step that performs the increment
(`seatsPsychologistsUsed: { increment: 1 }`), applied to a subscription
already at its limit (`used = max = 1`), does not leave the counter
unchanged — it pushes it to 2, past the limit.  The check lives in a
separate prior read, not in the same atomic statement. -/
theorem seatIncrementStep_pushes_past_limit :
    atLimitSub.seatsPsychologistsUsed ≥ atLimitSub.seatsPsychologistsMax ∧
    (seatIncrementStep atLimitSub).seatsPsychologistsUsed =
      atLimitSub.seatsPsychologistsUsed + 1 ∧
    (seatIncrementStep atLimitSub).seatsPsychologistsUsed >
      atLimitSub.seatsPsychologistsMax := by
  decide

/-- C1 (amended): the seat reservation path of `UsersService.create` /
`invite` enforces the limit by a separate prior read
(`checkSeatAvailability`), which throws before any write when the
subscription is missing, inactive, or at its limit; only when that read
sees `used < max` does the transaction run the increment, and the
increment itself is unconditional (`used := used + 1` with no guard in
the same statement). -/
theorem reserveSeat_check_then_unconditional_increment (s : Subscription) :
    ((s.status = SubStatus.ACTIVE ∨ s.status = SubStatus.TRIALING) →
      s.seatsPsychologistsUsed < s.seatsPsychologistsMax →
      reserveSeat (some s) = .ok (seatIncrementStep s)) ∧
    ((s.status ≠ SubStatus.ACTIVE ∧ s.status ≠ SubStatus.TRIALING) →
      reserveSeat (some s) = .error .subscriptionInactive) ∧
    ((s.status = SubStatus.ACTIVE ∨ s.status = SubStatus.TRIALING) →
      s.seatsPsychologistsUsed ≥ s.seatsPsychologistsMax →
      reserveSeat (some s) = .error .seatLimitReached) ∧
    (seatIncrementStep s).seatsPsychologistsUsed =
      s.seatsPsychologistsUsed + 1 := by
  refine ⟨?_, ?_, ?_, rfl⟩
  · intro hstat hlt
    simp only [reserveSeat, checkSeatAvailability]
    split_ifs with h1 h2 <;>
      first
        | rfl
        | (exfalso; omega)
        | (exfalso; tauto)
  · intro hstat
    simp only [reserveSeat, checkSeatAvailability]
    split_ifs with h1 <;>
      first
        | rfl
        | (exfalso; tauto)
  · intro hstat hge
    simp only [reserveSeat, checkSeatAvailability]
    split_ifs with h1 h2 <;>
      first
        | rfl
        | (exfalso; omega)
        | (exfalso; tauto)

/-- Witness for `reserveSeat_check_then_unconditional_increment` at a
concrete subscription with a free seat. -/
theorem reserveSeat_check_then_unconditional_increment_witness :
    reserveSeat (some oneFreeSub) = .ok (seatIncrementStep oneFreeSub) :=
  (reserveSeat_check_then_unconditional_increment oneFreeSub).1
    (Or.inl rfl) (by decide)

/-! ## C2: the three-clause conflict OR equals half-open overlap -/

/-- C2: for an existing appointment A (same tenant and psychologist,
status neither CANCELLED nor NO_SHOW) and a proposed interval B, both
nonempty, the three-clause OR of `checkConflicts` holds iff
`A.start < B.end AND B.start < A.end`; in particular back-to-back rows
with `A.end = B.start` never match. -/
theorem conflictMatches_iff_overlap (a : Appointment)
    (tenantId psychologistId : Nat) (bStart bEnd : Int)
    (ht : a.tenantId = tenantId) (hp : a.psychologistId = psychologistId)
    (hc : a.status ≠ ApptStatus.CANCELLED)
    (hn : a.status ≠ ApptStatus.NO_SHOW)
    (ha : a.startTime < a.endTime) (hb : bStart < bEnd) :
    (conflictMatches tenantId psychologistId bStart bEnd none a = true ↔
      (a.startTime < bEnd ∧ bStart < a.endTime)) ∧
    (a.endTime = bStart →
      conflictMatches tenantId psychologistId bStart bEnd none a = false) := by
  subst ht hp
  unfold conflictMatches overlapClauses
  constructor
  · simp only [decide_eq_true_eq, Bool.and_eq_true, Bool.or_eq_true,
      Bool.not_eq_true', Bool.or_eq_false_iff, decide_eq_false_iff_not,
      decide_True, Bool.true_and, Bool.and_true, and_true, true_and]
    constructor
    · rintro ⟨-, h⟩
      omega
    · intro h
      exact ⟨⟨hc, hn⟩, by omega⟩
  · intro hback
    simp only [Bool.and_eq_false_iff, Bool.or_eq_false_iff,
      decide_eq_false_iff_not, Bool.and_eq_true, decide_eq_true_eq,
      Bool.not_eq_true', Bool.or_eq_true]
    omega

/-- Witness for `conflictMatches_iff_overlap`: a stored 10:00-11:00 slot
(milliseconds 0 and 3600000) conflicts with a proposed 10:30-11:30 slot. -/
theorem conflictMatches_iff_overlap_witness :
    conflictMatches 1 2 1800000 5400000 none
      { id := 7, tenantId := 1, psychologistId := 2, patientId := 3,
        startTime := 0, endTime := 3600000, duration := 60,
        status := .SCHEDULED, cancelledBy := none } = true :=
  ((conflictMatches_iff_overlap _ 1 2 1800000 5400000 rfl rfl
      (by decide) (by decide) (by decide) (by decide)).1).mpr
    ⟨by decide, by decide⟩

/-! ## C10: feature access is gated on subscription status -/

/-- C10: `checkFeatureAccess` returns `false` for every feature whenever
the tenant has no subscription or the status is neither ACTIVE nor
TRIALING, regardless of the stored flags; under ACTIVE or TRIALING it
returns the stored flag for the feature. -/
theorem checkFeatureAccess_gating (f : Feature) :
    checkFeatureAccess none f = false ∧
    (∀ s : Subscription,
      s.status ≠ SubStatus.ACTIVE → s.status ≠ SubStatus.TRIALING →
      checkFeatureAccess (some s) f = false) ∧
    (∀ s : Subscription,
      s.status = SubStatus.ACTIVE ∨ s.status = SubStatus.TRIALING →
      checkFeatureAccess (some s) f = s.features.get f) := by
  refine ⟨rfl, ?_, ?_⟩
  · intro s h1 h2
    simp only [checkFeatureAccess]
    split_ifs with h <;>
      first
        | rfl
        | (exfalso; tauto)
  · intro s hstat
    simp only [checkFeatureAccess]
    split_ifs with h <;>
      first
        | rfl
        | (exfalso; tauto)

/-- Witness for `checkFeatureAccess_gating`: a PAST_DUE subscription
whose stored flags are all `true` still gets `false`. -/
theorem checkFeatureAccess_gating_witness :
    checkFeatureAccess (some pastDueSub) .advancedAnalytics = false ∧
    pastDueSub.features.advancedAnalytics = true :=
  ⟨(checkFeatureAccess_gating .advancedAnalytics).2.1 pastDueSub
      (by decide) (by decide),
    by decide⟩

/-! ## Seat helper lemmas (shared) -/

/-- A seat reservation either performs the increment from a state with a
free seat, or leaves the row untouched. -/
theorem applySeatOp_reserve_cases (s : Subscription) :
    (applySeatOp s .reserve = seatIncrementStep s ∧
      s.seatsPsychologistsUsed < s.seatsPsychologistsMax) ∨
    applySeatOp s .reserve = s := by
  simp only [applySeatOp, reserveSeat, checkSeatAvailability]
  split_ifs with h1 h2
  · right; rfl
  · right; rfl
  · left; exact ⟨rfl, by omega⟩

/-- A reservation succeeds (returning the incremented row) when the
status check and the limit check both pass. -/
theorem reserveSeat_ok_of (s : Subscription)
    (hstat : s.status = SubStatus.ACTIVE ∨ s.status = SubStatus.TRIALING)
    (hlt : s.seatsPsychologistsUsed < s.seatsPsychologistsMax) :
    reserveSeat (some s) = .ok (seatIncrementStep s) := by
  simp only [reserveSeat, checkSeatAvailability]
  split_ifs <;>
    first
      | rfl
      | (exfalso; omega)
      | (exfalso; tauto)

/-- At or past the limit, a reservation is denied (whatever the status). -/
theorem reserveSeat_error_of_full (s : Subscription)
    (hge : s.seatsPsychologistsMax ≤ s.seatsPsychologistsUsed) :
    ∃ d, reserveSeat (some s) = .error d := by
  simp only [reserveSeat, checkSeatAvailability]
  split_ifs <;>
    first
      | exact ⟨_, rfl⟩
      | (exfalso; omega)

/-- One committed seat operation preserves `0 ≤ used ≤ max` (and never
touches `max`). -/
theorem applySeatOp_invariant (s : Subscription) (op : SeatOp)
    (h0 : 0 ≤ s.seatsPsychologistsUsed)
    (h1 : s.seatsPsychologistsUsed ≤ s.seatsPsychologistsMax) :
    0 ≤ (applySeatOp s op).seatsPsychologistsUsed ∧
    (applySeatOp s op).seatsPsychologistsUsed ≤
      (applySeatOp s op).seatsPsychologistsMax := by
  cases op with
  | reserve =>
    rcases applySeatOp_reserve_cases s with ⟨heq, hlt⟩ | heq <;> rw [heq]
    · simp only [seatIncrementStep]
      constructor <;> (try simp) <;> omega
    · exact ⟨h0, h1⟩
  | release =>
    simp only [applySeatOp, seatConditionalRelease]
    split_ifs with h <;> constructor <;> (try simp) <;> omega

/-! ## C3: the seat counter invariant under sequential operations -/

/-- C3: starting from `0 ≤ used ≤ max`, any sequence of sequentially
committed seat reservations (create/invite/activate of a PSYCHOLOGIST)
and releases (deactivate, or update removing active-PSYCHOLOGIST status)
preserves `0 ≤ used ≤ max`; and the release step decrements only when
`used > 0`, so releasing at zero leaves the row untouched. -/
theorem seat_counter_invariant_sequential (s : Subscription)
    (ops : List SeatOp)
    (h0 : 0 ≤ s.seatsPsychologistsUsed)
    (h1 : s.seatsPsychologistsUsed ≤ s.seatsPsychologistsMax) :
    (0 ≤ (runSeatOps s ops).seatsPsychologistsUsed ∧
      (runSeatOps s ops).seatsPsychologistsUsed ≤
        (runSeatOps s ops).seatsPsychologistsMax) ∧
    (∀ t : Subscription, t.seatsPsychologistsUsed = 0 →
      seatConditionalRelease t = t) := by
  constructor
  · induction ops generalizing s with
    | nil => exact ⟨h0, h1⟩
    | cons op rest ih =>
      have hstep := applySeatOp_invariant s op h0 h1
      simpa only [runSeatOps, List.foldl_cons] using
        ih (applySeatOp s op) hstep.1 hstep.2
  · intro t ht
    simp only [seatConditionalRelease]
    split_ifs with h
    · omega
    · rfl

/-- Witness for `seat_counter_invariant_sequential`: a double release
after two reservations against `max = 1`, starting from `used = 0`. -/
theorem seat_counter_invariant_sequential_witness :
    0 ≤ (runSeatOps oneFreeSub
        [.reserve, .reserve, .release, .release]).seatsPsychologistsUsed ∧
    (runSeatOps oneFreeSub
        [.reserve, .reserve, .release, .release]).seatsPsychologistsUsed ≤
      (runSeatOps oneFreeSub
        [.reserve, .reserve, .release, .release]).seatsPsychologistsMax :=
  (seat_counter_invariant_sequential oneFreeSub
    [.reserve, .reserve, .release, .release] (by decide) (by decide)).1

/-! ## C9: concurrent seat reservations -/

/-- Two concurrent reservation calls against `used = 0, max = 1`. -/
def twoCallRace : ConcurrentRun :=
  { sub := oneFreeSub, phases := [.pending, .pending] }

/-- C9 counterexample: with `seatsMax = 1`, `seatsUsed = 0` and
`1 + 1` concurrent calls, the interleaving read-0, read-1, write-0,
write-1 lets both reads pass the check before either write lands: both
calls succeed (2 successes, 0 denials) and the counter ends at 2 — not
the claimed `seatsMax = 1` successes and `k = 1` denials regardless of
interleaving. -/
theorem concurrent_reserve_can_exceed_limit :
    oneFreeSub.seatsPsychologistsUsed = 0 ∧
    oneFreeSub.seatsPsychologistsMax = 1 ∧
    countPhase (runSchedule twoCallRace [0, 1, 0, 1]) .succeeded = 2 ∧
    countPhase (runSchedule twoCallRace [0, 1, 0, 1]) .denied = 0 ∧
    (runSchedule twoCallRace [0, 1, 0, 1]).sub.seatsPsychologistsUsed = 2 := by
  decide

/-- Unfolding of one sequential batch step on a successful reservation. -/
theorem seqReserveRun_succ_ok (n : Nat) (s s' : Subscription)
    (h : reserveSeat (some s) = .ok s') :
    seqReserveRun s (n + 1) =
      ((seqReserveRun s' n).1 + 1, (seqReserveRun s' n).2.1,
        (seqReserveRun s' n).2.2) := by
  simp only [seqReserveRun, h]

/-- Unfolding of one sequential batch step on a denied reservation. -/
theorem seqReserveRun_succ_error (n : Nat) (s : Subscription)
    (d : SeatDenial) (h : reserveSeat (some s) = .error d) :
    seqReserveRun s (n + 1) =
      ((seqReserveRun s n).1, (seqReserveRun s n).2.1 + 1,
        (seqReserveRun s n).2.2) := by
  simp only [seqReserveRun, h]

/-- While seats remain (`used + n ≤ max`), a sequential batch of `n`
reservations all succeed and add `n` to the counter. -/
theorem seqReserveRun_all_ok (n : Nat) : ∀ s : Subscription,
    (s.status = SubStatus.ACTIVE ∨ s.status = SubStatus.TRIALING) →
    s.seatsPsychologistsUsed + (n : Int) ≤ s.seatsPsychologistsMax →
    seqReserveRun s n =
      (n, 0,
        { s with seatsPsychologistsUsed :=
            s.seatsPsychologistsUsed + (n : Int) }) := by
  induction n with
  | zero =>
    intro s hstat hle
    simp [seqReserveRun]
  | succ n ih =>
    intro s hstat hle
    have hlt : s.seatsPsychologistsUsed < s.seatsPsychologistsMax := by
      push_cast at hle
      omega
    rw [seqReserveRun_succ_ok n s _ (reserveSeat_ok_of s hstat hlt)]
    rw [ih (seatIncrementStep s) hstat (by simp [seatIncrementStep]; push_cast at hle ⊢; omega)]
    simp only [seatIncrementStep]
    refine congrArg₂ _ rfl (congrArg₂ _ rfl ?_)
    have : s.seatsPsychologistsUsed + 1 + (n : Int) =
        s.seatsPsychologistsUsed + ((n : Int) + 1) := by ring
    rw [this]
    push_cast
    ring_nf

/-- Once the row is full, every further sequential reservation is
denied and the row never changes. -/
theorem seqReserveRun_all_denied (n : Nat) : ∀ s : Subscription,
    s.seatsPsychologistsMax ≤ s.seatsPsychologistsUsed →
    seqReserveRun s n = (0, n, s) := by
  induction n with
  | zero => intro s _; rfl
  | succ n ih =>
    intro s h
    obtain ⟨d, hd⟩ := reserveSeat_error_of_full s h
    rw [seqReserveRun_succ_error n s d hd, ih s h]

/-- A sequential batch of `a + b` reservations is the batch of `a`
followed by the batch of `b` from the resulting row, with the success
and denial counts adding up. -/
theorem seqReserveRun_append (a b : Nat) : ∀ s : Subscription,
    seqReserveRun s (a + b) =
      ((seqReserveRun s a).1 + (seqReserveRun (seqReserveRun s a).2.2 b).1,
       (seqReserveRun s a).2.1 +
         (seqReserveRun (seqReserveRun s a).2.2 b).2.1,
       (seqReserveRun (seqReserveRun s a).2.2 b).2.2) := by
  induction a with
  | zero =>
    intro s
    simp [seqReserveRun]
  | succ a ih =>
    intro s
    have hrw : a + 1 + b = (a + b) + 1 := by omega
    rw [hrw]
    rcases hres : reserveSeat (some s) with d | s'
    · rw [seqReserveRun_succ_error (a + b) s d hres, ih s,
        seqReserveRun_succ_error a s d hres]
      simp
      omega
    · rw [seqReserveRun_succ_ok (a + b) s s' hres, ih s',
        seqReserveRun_succ_ok a s s' hres]
      simp
      omega

/-- C9 (amended): executed sequentially (each call's check and increment
committed before the next call starts), firing `seatsMax + k`
reservations against a tenant with `seatsUsed = 0` yields exactly
`seatsMax` successes and `k` denials; the concurrent version of the
claim fails because the check and the increment are separate statements
(see the interleaving counterexample). -/
theorem seq_reserve_exact_counts (m k : Nat) (s : Subscription)
    (hstat : s.status = SubStatus.ACTIVE ∨ s.status = SubStatus.TRIALING)
    (hused : s.seatsPsychologistsUsed = 0)
    (hmax : s.seatsPsychologistsMax = (m : Int)) :
    (seqReserveRun s (m + k)).1 = m ∧
    (seqReserveRun s (m + k)).2.1 = k := by
  have hfirst := seqReserveRun_all_ok m s hstat (by rw [hused, hmax]; omega)
  have hfullrow :
      (seqReserveRun s m).2.2.seatsPsychologistsMax ≤
        (seqReserveRun s m).2.2.seatsPsychologistsUsed := by
    rw [hfirst]
    simp
    omega
  have hrest := seqReserveRun_all_denied k (seqReserveRun s m).2.2 hfullrow
  rw [seqReserveRun_append m k s, hrest, hfirst]
  simp

/-- Witness for `seq_reserve_exact_counts`: `seatsMax = 1`, `k = 2`
sequential calls against the demo subscription give 1 success and 2
denials. -/
theorem seq_reserve_exact_counts_witness :
    (seqReserveRun oneFreeSub 3).1 = 1 ∧ (seqReserveRun oneFreeSub 3).2.1 = 2 :=
  seq_reserve_exact_counts 1 2 oneFreeSub (Or.inl rfl) (by decide) (by decide)

/-! ## C4: the working-hours gate checks only the start -/

/-- C4 counterexample: with working hours 09:00-17:00, a 60-minute
booking starting 16:30 on a working day (start minute 990, so its end
minute 1050 lies past `endOfDay` = 1020) is not rejected: the gate
passes and, with no stored appointments, the booking is inserted. -/
theorem create_accepts_booking_ending_after_close :
    (990 : Int) + 60 > 17 * 60 ∧
    (9 : Int) * 60 ≤ 990 ∧ (990 : Int) < 17 * 60 ∧
    createAppointment (some demoSettings) [] 1 2 3 10 .MONDAY 990 59400000 60 =
      .booked
        { id := 10, tenantId := 1, psychologistId := 2, patientId := 3,
          startTime := 59400000, endTime := 59400000 + 60 * 60000,
          duration := 60, status := .SCHEDULED, cancelledBy := none } := by
  decide

/-- C4 (amended): the working-hours gate of `AppointmentsService.create`
(when tenant settings exist) rejects exactly when the weekday of the
start is not a working day, or when the start's minutes-of-day lies
outside `[startOfDay, endOfDay)`; whenever the weekday is a working day
and `workStart <= startMinutes < workEnd`, the booking proceeds to the
conflict search and insert regardless of its duration — the end
instant's minutes-of-day is never checked. -/
theorem create_working_hours_gate (s : TenantSettings)
    (stored : List Appointment)
    (tenantId psychologistId patientId newId : Nat)
    (weekday : Weekday) (startMinutes startMs duration : Int) :
    (weekday ∉ s.workingDays →
      createAppointment (some s) stored tenantId psychologistId patientId
        newId weekday startMinutes startMs duration = .wrongDay) ∧
    (weekday ∈ s.workingDays →
      (startMinutes < s.workingHoursStart.1 * 60 + s.workingHoursStart.2 ∨
          startMinutes ≥ s.workingHoursEnd.1 * 60 + s.workingHoursEnd.2 →
        createAppointment (some s) stored tenantId psychologistId patientId
          newId weekday startMinutes startMs duration = .outsideHours) ∧
      ((s.workingHoursStart.1 * 60 + s.workingHoursStart.2 : Int) ≤
          startMinutes →
        startMinutes < s.workingHoursEnd.1 * 60 + s.workingHoursEnd.2 →
        createAppointment (some s) stored tenantId psychologistId patientId
          newId weekday startMinutes startMs duration =
          finishBooking stored tenantId psychologistId patientId newId
            startMs duration)) := by
  refine ⟨?_, ?_⟩
  · intro hday
    simp only [createAppointment]
    split_ifs with h <;>
      first
        | rfl
        | (exfalso; tauto)
  · intro hday
    constructor
    · intro hout
      simp only [createAppointment]
      split_ifs with h1 h2 <;>
        first
          | rfl
          | (exfalso; tauto)
          | (exfalso; push_cast at *; omega)
    · intro hlo hhi
      simp only [createAppointment]
      split_ifs with h1 h2 <;>
        first
          | rfl
          | (exfalso; tauto)
          | (exfalso; push_cast at *; omega)

/-- Witness for `create_working_hours_gate`: booking on a non-working
day (demo settings restricted to MONDAY) is rejected as `wrongDay`. -/
theorem create_working_hours_gate_witness :
    createAppointment
      (some { demoSettings with workingDays := [.MONDAY] }) [] 1 2 3 10
      .SUNDAY 600 0 60 = .wrongDay :=
  (create_working_hours_gate { demoSettings with workingDays := [.MONDAY] }
    [] 1 2 3 10 .SUNDAY 600 0 60).1 (by decide)

/-! ## C8: COMPLETED appointments are not immutable -/

/-- C8 counterexample: `cancel` moves the stored COMPLETED appointment
to CANCELLED, and `update` with a new start reschedules it — both
change its stored fields, so COMPLETED rows are not immutable. -/
theorem completed_appointment_is_mutable :
    completedAppt.status = .COMPLETED ∧
    cancelAppointment [completedAppt] 1 7 9 =
      .updated { completedAppt with
        status := .CANCELLED,
        cancelledBy := some 9 } ∧
    ({ completedAppt with
        status := ApptStatus.CANCELLED,
        cancelledBy := some 9 } ≠ completedAppt) ∧
    updateAppointment [completedAppt] 1 7
        { startTime := some 7200000, duration := none,
          psychologistId := none, patientId := none, status := none } =
      .updated { completedAppt with
        startTime := 7200000,
        endTime := 7200000 + 60 * 60000 } ∧
    ({ completedAppt with
        startTime := (7200000 : Int),
        endTime := (7200000 : Int) + 60 * 60000 } ≠ completedAppt) := by
  decide

/-- C8 (amended): neither `update` nor `cancel` evaluates any status
precondition: a COMPLETED appointment found by id within the tenant is
cancelled (status set to CANCELLED with the audit fields) and can be
rescheduled to any conflict-free new start exactly like a SCHEDULED
one. -/
theorem completed_not_guarded (a : Appointment) (userId : Nat)
    (newStart : Int) (h : a.status = ApptStatus.COMPLETED) :
    cancelAppointment [a] a.tenantId a.id userId =
      .updated { a with status := .CANCELLED, cancelledBy := some userId } ∧
    updateAppointment [a] a.tenantId a.id
        { startTime := some newStart, duration := none,
          psychologistId := none, patientId := none, status := none } =
      .updated { a with
        startTime := newStart,
        endTime := newStart + a.duration * 60000 } := by
  have hfind : List.find? (fun b =>
      decide (b.id = a.id) && decide (b.tenantId = a.tenantId)) [a] = some a := by
    simp [List.find?]
  constructor
  · simp only [cancelAppointment, hfind]
  · simp only [updateAppointment, hfind]
    have hconf : checkConflicts [a] a.tenantId a.psychologistId newStart
        (newStart + a.duration * 60000) (some a.id) = [] := by
      simp [checkConflicts, conflictMatches]
    simp [hconf, applyUpdateDto]

/-- Witness for `completed_not_guarded` at the stored COMPLETED demo
appointment. -/
theorem completed_not_guarded_witness :
    cancelAppointment [completedAppt] completedAppt.tenantId
        completedAppt.id 9 =
      .updated { completedAppt with
        status := .CANCELLED,
        cancelledBy := some 9 } :=
  (completed_not_guarded completedAppt 9 7200000 (by decide)).1

/-! ## Subscription lifecycle helper lemmas (shared) -/

/-- The itemized error list of `validateDowngrade` when the subscription
row exists, and the fact that `canDowngrade` is exactly its emptiness. -/
theorem validateDowngrade_errors_eq (st : TenantState) (sub : Subscription)
    (L : PlanLimits) (hsub : st.subscription = some sub) :
    (validateDowngrade st L).errors =
      (if st.usage.psychologistsCount > L.seatsIncluded then
        [DowngradeViolation.seatsExceeded] else []) ++
      (if st.usage.activePatientsCount > L.maxActivePatients then
        [DowngradeViolation.patientsExceeded] else []) ++
      (if sub.storageUsedBytes > L.storageGB * bytesPerGB then
        [DowngradeViolation.storageExceeded] else []) ∧
    (validateDowngrade st L).canDowngrade =
      (validateDowngrade st L).errors.isEmpty := by
  simp only [validateDowngrade, hsub]
  refine ⟨?_, ?_⟩ <;>
    first
      | rfl
      | trivial

/-! ## C5: a blocked downgrade has zero side effects -/

/-- C5: when the target tier is strictly lower and any real usage
(active psychologists, active patients, storage bytes) exceeds a target
limit, `downgradePlan` returns the blocked denial carrying the itemized
list of exactly the violated limits, and the state is untouched: the
subscription row is unchanged and no SubscriptionEvent is appended. -/
theorem downgrade_blocked_no_side_effects (st : TenantState)
    (sub : Subscription) (newPlan : PlanType)
    (hsub : st.subscription = some sub)
    (hdir : planIndex newPlan < planIndex sub.planType)
    (hviol :
      st.usage.psychologistsCount > (getPlanLimits newPlan).seatsIncluded ∨
      st.usage.activePatientsCount >
        (getPlanLimits newPlan).maxActivePatients ∨
      sub.storageUsedBytes > (getPlanLimits newPlan).storageGB * bytesPerGB) :
    (downgradePlan st newPlan).2 = st ∧
    (downgradePlan st newPlan).1 =
      .blocked (validateDowngrade st (getPlanLimits newPlan)).errors ∧
    (validateDowngrade st (getPlanLimits newPlan)).errors ≠ [] ∧
    (DowngradeViolation.seatsExceeded ∈
        (validateDowngrade st (getPlanLimits newPlan)).errors ↔
      st.usage.psychologistsCount > (getPlanLimits newPlan).seatsIncluded) ∧
    (DowngradeViolation.patientsExceeded ∈
        (validateDowngrade st (getPlanLimits newPlan)).errors ↔
      st.usage.activePatientsCount >
        (getPlanLimits newPlan).maxActivePatients) ∧
    (DowngradeViolation.storageExceeded ∈
        (validateDowngrade st (getPlanLimits newPlan)).errors ↔
      sub.storageUsedBytes > (getPlanLimits newPlan).storageGB * bytesPerGB) := by
  have hv := validateDowngrade_errors_eq st sub (getPlanLimits newPlan) hsub
  have herrne : (validateDowngrade st (getPlanLimits newPlan)).errors ≠ [] := by
    rw [hv.1]
    rcases hviol with h | h | h <;> split_ifs <;> simp_all
  have hcd :
      (validateDowngrade st (getPlanLimits newPlan)).canDowngrade = false := by
    rw [hv.2]
    simpa [List.isEmpty_iff] using herrne
  have hred : downgradePlan st newPlan =
      (.blocked (validateDowngrade st (getPlanLimits newPlan)).errors, st) := by
    simp only [downgradePlan, hsub]
    rw [if_neg (by omega)]
    rw [hcd]
    simp
  rw [hred]
  refine ⟨rfl, rfl, herrne, ?_, ?_, ?_⟩ <;>
    rw [hv.1] <;> split_ifs <;> simp_all

/-- Witness data: a PRO subscription. -/
def proSub : Subscription :=
  { atLimitSub with
    planType := .PRO,
    seatsPsychologistsMax := 10,
    seatsPsychologistsUsed := 2,
    maxActivePatients := 500,
    storageGB := 1,
    monthlyNotificationsLimit := 2000,
    features := getPlanFeatures .PRO }

/-- Witness data: a tenant on PRO with 2 active psychologists and 50
active patients. -/
def proState : TenantState :=
  { subscription := some proSub, events := [], usage := ⟨2, 50⟩ }

/-- Witness for `downgrade_blocked_no_side_effects`: downgrading the PRO
tenant to TRIAL (patient limit 10 < 50 in use) changes nothing. -/
theorem downgrade_blocked_no_side_effects_witness :
    (downgradePlan proState .TRIAL).2 = proState :=
  (downgrade_blocked_no_side_effects proState proSub .TRIAL rfl (by decide)
    (Or.inr (Or.inl (by decide)))).1

/-! ## C6: a passing downgrade only schedules the change -/

/-- C6: when the target tier is strictly lower and validation passes,
`downgradePlan` writes only `scheduledPlanChange := newPlan` and
`scheduledPlanChangeAt := currentPeriodEnd` on the subscription row
(plan type, status, prices, limits, counters and feature flags all kept),
appends exactly one PLAN_DOWNGRADED event, leaves usage untouched, and
returns the feature-loss warnings without blocking the schedule. -/
theorem downgrade_scheduled_frame (st : TenantState) (sub : Subscription)
    (newPlan : PlanType) (hsub : st.subscription = some sub)
    (hdir : planIndex newPlan < planIndex sub.planType)
    (hok : (validateDowngrade st (getPlanLimits newPlan)).canDowngrade = true) :
    (downgradePlan st newPlan).1 =
      .scheduled sub.currentPeriodEnd sub.planType newPlan
        (validateDowngrade st (getPlanLimits newPlan)).warnings ∧
    (downgradePlan st newPlan).2.subscription = some { sub with
      scheduledPlanChange := some newPlan,
      scheduledPlanChangeAt := sub.currentPeriodEnd } ∧
    (downgradePlan st newPlan).2.events =
      st.events ++ [⟨.PLAN_DOWNGRADED, sub.planType, newPlan⟩] ∧
    (downgradePlan st newPlan).2.usage = st.usage := by
  have hred : downgradePlan st newPlan =
      (.scheduled sub.currentPeriodEnd sub.planType newPlan
          (validateDowngrade st (getPlanLimits newPlan)).warnings,
        { st with
          subscription := some { sub with
            scheduledPlanChange := some newPlan,
            scheduledPlanChangeAt := sub.currentPeriodEnd },
          events := st.events ++
            [⟨.PLAN_DOWNGRADED, sub.planType, newPlan⟩] }) := by
    simp only [downgradePlan, hsub]
    rw [if_neg (by omega)]
    rw [hok]
    simp
  rw [hred]
  exact ⟨rfl, rfl, rfl, rfl⟩

/-- Witness for `downgrade_scheduled_frame`: the PRO tenant downgrading
to BASIC (within all BASIC limits) gets only the scheduled change. -/
theorem downgrade_scheduled_frame_witness :
    (downgradePlan proState .BASIC).2.subscription = some { proSub with
      scheduledPlanChange := some PlanType.BASIC,
      scheduledPlanChangeAt := proSub.currentPeriodEnd } :=
  (downgrade_scheduled_frame proState proSub .BASIC rfl (by decide)
    (by decide)).2.1

/-! ## C7: an upgrade is immediate and unlocks the new bundle -/

/-- C7: `upgradePlan` is rejected as a usage error unless the new tier
is strictly higher in TRIAL < BASIC < PRO < CUSTOM; on success it
immediately (in the same transaction) replaces the prices, all limits
and the whole feature bundle with the new tier's fixed values, sets
status ACTIVE, clears any scheduled downgrade, appends one PLAN_UPGRADED
event, and afterwards `checkFeatureAccess` returns true for every
feature in the new tier's bundle. -/
theorem upgrade_immediate (st : TenantState) (sub : Subscription)
    (newPlan : PlanType) (hsub : st.subscription = some sub) :
    (planIndex newPlan ≤ planIndex sub.planType →
      upgradePlan st newPlan = (.notAnUpgrade, st)) ∧
    (planIndex sub.planType < planIndex newPlan →
      (upgradePlan st newPlan).1 = .upgraded newPlan ∧
      (upgradePlan st newPlan).2.subscription = some { sub with
        planType := newPlan,
        status := SubStatus.ACTIVE,
        basePrice := (getPlanLimits newPlan).basePrice,
        pricePerSeat := (getPlanLimits newPlan).pricePerSeat,
        seatsPsychologistsMax := (getPlanLimits newPlan).seatsIncluded,
        maxActivePatients := (getPlanLimits newPlan).maxActivePatients,
        storageGB := (getPlanLimits newPlan).storageGB,
        monthlyNotificationsLimit :=
          (getPlanLimits newPlan).monthlyNotificationsLimit,
        features := getPlanFeatures newPlan,
        scheduledPlanChange := none,
        scheduledPlanChangeAt := none } ∧
      (upgradePlan st newPlan).2.events =
        st.events ++ [⟨.PLAN_UPGRADED, sub.planType, newPlan⟩] ∧
      ∀ f : Feature, (getPlanFeatures newPlan).get f = true →
        checkFeatureAccess (upgradePlan st newPlan).2.subscription f = true) := by
  constructor
  · intro hle
    simp only [upgradePlan, hsub]
    rw [if_pos hle]
  · intro hgt
    have hred : upgradePlan st newPlan =
        (.upgraded newPlan,
          { st with
            subscription := some { sub with
              planType := newPlan,
              status := SubStatus.ACTIVE,
              basePrice := (getPlanLimits newPlan).basePrice,
              pricePerSeat := (getPlanLimits newPlan).pricePerSeat,
              seatsPsychologistsMax := (getPlanLimits newPlan).seatsIncluded,
              maxActivePatients := (getPlanLimits newPlan).maxActivePatients,
              storageGB := (getPlanLimits newPlan).storageGB,
              monthlyNotificationsLimit :=
                (getPlanLimits newPlan).monthlyNotificationsLimit,
              features := getPlanFeatures newPlan,
              scheduledPlanChange := none,
              scheduledPlanChangeAt := none },
            events := st.events ++
              [⟨.PLAN_UPGRADED, sub.planType, newPlan⟩] }) := by
      simp only [upgradePlan, hsub]
      rw [if_neg (by omega)]
    rw [hred]
    refine ⟨rfl, rfl, rfl, ?_⟩
    intro f hf
    simp only [checkFeatureAccess]
    split_ifs with h
    · exact absurd rfl h.1
    · exact hf

/-- Witness data: a TRIAL tenant. -/
def trialState : TenantState :=
  { subscription := some atLimitSub, events := [], usage := ⟨1, 5⟩ }

/-- Witness for `upgrade_immediate`: right after upgrading the TRIAL
tenant to PRO, `checkFeatureAccess` grants advancedAnalytics. -/
theorem upgrade_immediate_witness :
    checkFeatureAccess (upgradePlan trialState .PRO).2.subscription
      .advancedAnalytics = true :=
  ((upgrade_immediate trialState atLimitSub .PRO rfl).2 (by decide)).2.2.2
    .advancedAnalytics (by decide)

end Clinic
